import Mathlib

/-!
Verification development for the gbx-header crate: a parser extracting
metadata from Trackmania GBX container files.  The definitions below are a
shallow embedding of `src/gbx/parser.rs`, `src/gbx/parser/challenge.rs`,
`src/gbx/parser/replay.rs` and the data model of `src/gbx/mod.rs`.

Modelling conventions:
- byte buffers are `List Nat` (each element a byte value);
- Rust `Result<T, ParseError>` is `Except ParseError T`;
- observable panics (out-of-range slicing, `String::from_utf8(..).unwrap()`,
  checked integer underflow) are a distinct `PResult.panicked` outcome;
- the external xml-rs `EventReader` is abstracted as a stream of events
  (`List XmlEvent`); the decoders of this repository consume such streams.
  `parse_from_buffer` therefore takes the tokenizer as a parameter.
-/

deriving instance DecidableEq for Except

namespace Gbx

/-- Error type from `parser.rs` (`ParseError`), merged with the
`XMLParseError` variant used by `parser/replay.rs`.  Payloads that carry
foreign-library values (`ParseIntError`, the xml error, `io::Error`) are
dropped; the `String` payload of `HeaderTryIntoEnumError` is kept. -/
inductive ParseError : Type where
  | MissingGBXMagic
  | FileTooShort
  | HeaderNotFound
  | ThumbnailNotFound
  | HeaderValueError
  | HeaderTryIntoEnumError (msg : String)
  | XMLParseError
  | IOError
  | Unknown
deriving DecidableEq

/-- ASCII lowercasing of one character.  Models Rust `str::to_lowercase`
restricted to ASCII: every string compared against in `mod.rs` is ASCII. -/
def char_to_lowercase (c : Char) : Char :=
  if 65 ≤ c.toNat ∧ c.toNat ≤ 90 then Char.ofNat (c.toNat + 32) else c

/-- `value.to_lowercase()` as used by every `TryFrom<&str>` impl in `mod.rs`. -/
def to_lowercase (s : String) : String :=
  String.mk (s.data.map char_to_lowercase)

/-- `MapType` (`mod.rs`). -/
inductive MapType : Type where
  | Challenge
deriving DecidableEq

/-- `MapType::default` (`mod.rs`). -/
def MapType.default : MapType := .Challenge

/-- `impl TryFrom<&str> for MapType` (`mod.rs` lines 210-219). -/
def MapType.try_from (value : String) : Except String MapType :=
  if to_lowercase value = "challenge" then .ok .Challenge
  else .error ("Unknown map type: " ++ value)

/-- `GBXVersion` (`mod.rs`). -/
inductive GBXVersion : Type where
  | TMc6
  | TMr7
deriving DecidableEq

/-- `GBXVersion::default` (`mod.rs`). -/
def GBXVersion.default : GBXVersion := .TMc6

/-- `impl TryFrom<&str> for GBXVersion` (`mod.rs` lines 233-243). -/
def GBXVersion.try_from (value : String) : Except String GBXVersion :=
  if to_lowercase value = "tmc.6" then .ok .TMc6
  else if to_lowercase value = "tmr.7" then .ok .TMr7
  else .error ("Unknown map version: " ++ value)

/-- `Environment` (`mod.rs`). -/
inductive Environment : Type where
  | Stadium
deriving DecidableEq

/-- `Environment::default` (`mod.rs`). -/
def Environment.default : Environment := .Stadium

/-- `impl TryFrom<&str> for Environment` (`mod.rs` lines 267-276). -/
def Environment.try_from (value : String) : Except String Environment :=
  if to_lowercase value = "stadium" then .ok .Stadium
  else .error ("Unknown environment: " ++ value)

/-- `Mood` (`mod.rs`). -/
inductive Mood : Type where
  | Day
  | Sunset
  | Sunrise
  | Night
deriving DecidableEq

/-- `Mood::default` (`mod.rs`). -/
def Mood.default : Mood := .Day

/-- `impl TryFrom<&str> for Mood` (`mod.rs` lines 292-304). -/
def Mood.try_from (value : String) : Except String Mood :=
  if to_lowercase value = "day" then .ok .Day
  else if to_lowercase value = "sunset" then .ok .Sunset
  else if to_lowercase value = "sunrise" then .ok .Sunrise
  else if to_lowercase value = "night" then .ok .Night
  else .error ("Unknown mood: " ++ value)

/-- `DescType` (`mod.rs`). -/
inductive DescType : Type where
  | Race
deriving DecidableEq

/-- `DescType::default` (`mod.rs`). -/
def DescType.default : DescType := .Race

/-- `impl TryFrom<&str> for DescType` (`mod.rs` lines 317-326). -/
def DescType.try_from (value : String) : Except String DescType :=
  if to_lowercase value = "race" then .ok .Race
  else .error ("Unknown desc.type: " ++ value)

/-- `u32::from_str` / `str::parse::<u32>()`: optional leading `+`, at least
one ASCII digit, nothing else, value below `2^32`. -/
def parse_u32 (s : String) : Option Nat :=
  let ds := match s.data with
    | '+' :: rest => rest
    | cs => cs
  if ds ≠ [] ∧ ds.all (fun c => c.isDigit) then
    let n := ds.foldl (fun acc c => 10 * acc + (c.toNat - 48)) 0
    if n < 4294967296 then some n else none
  else none

/-- `i32::from_str`: optional sign, at least one ASCII digit, nothing else,
value within `[-2^31, 2^31)`. -/
def parse_i32 (s : String) : Option Int :=
  let signDigits : Bool × List Char := match s.data with
    | '-' :: rest => (true, rest)
    | '+' :: rest => (false, rest)
    | cs => (false, cs)
  let ds := signDigits.2
  if ds ≠ [] ∧ ds.all (fun c => c.isDigit) then
    let n : Nat := ds.foldl (fun acc c => 10 * acc + (c.toNat - 48)) 0
    if signDigits.1 then
      if n ≤ 2147483648 then some (-(n : Int)) else none
    else
      if n < 2147483648 then some (n : Int) else none
  else none

/-- `Times` (`mod.rs`): each field independently optional, in milliseconds. -/
structure Times : Type where
  bronze : Option Nat
  silver : Option Nat
  gold : Option Nat
  authortime : Option Nat
  authorscore : Option Nat
deriving DecidableEq

/-- `Times::default` (`mod.rs`, derived `Default`). -/
def Times.default : Times := ⟨none, none, none, none, none⟩

/-- `Dependency` (`mod.rs`). -/
structure Dependency : Type where
  file : String
deriving DecidableEq

/-- `ChallengeXMLHeader` (`mod.rs` lines 90-106).  Machine integers
(`u32 nblaps`, `u32 price`) are `Nat` kept below `2^32` by `parse_u32`. -/
structure ChallengeXMLHeader : Type where
  maptype : MapType
  mapversion : GBXVersion
  exever : String
  uid : String
  name : String
  author : String
  envir : Environment
  mood : Mood
  desctype : DescType
  nblaps : Nat
  price : Nat
  times : Option Times
  dependencies : List Dependency
deriving DecidableEq

/-- `ChallengeXMLHeader::default` (`mod.rs`, derived `Default`). -/
def ChallengeXMLHeader.default : ChallengeXMLHeader :=
  ⟨.Challenge, .TMc6, "", "", "", "", .Stadium, .Day, .Race, 0, 0, none, []⟩

/-- `ReplayScore` as populated by `parser/replay.rs` (lines 48-71):
`best`/`stuntscore` from `u32::from_str`, `respawns` from `i32::from_str`
(hence `Int`), `validable` a `Bool`.  The stale declaration in the
snapshot's `mod.rs` (lines 153-159) lists `respawns: u32`, which is
incompatible with the assignment in `replay.rs`; the decoder is embedded. -/
structure ReplayScore : Type where
  best : Nat
  respawns : Int
  stuntscore : Nat
  validable : Bool
deriving DecidableEq

/-- `ReplayScore::default`. -/
def ReplayScore.default : ReplayScore := ⟨0, 0, 0, false⟩

/-- `ReplayXMLHeader` as populated by `parser/replay.rs` (fields `version`,
`exever`, `map_uid`, `map_name`, `score`). -/
structure ReplayXMLHeader : Type where
  version : GBXVersion
  exever : String
  map_uid : String
  map_name : String
  score : ReplayScore
deriving DecidableEq

/-- `ReplayXMLHeader::default`. -/
def ReplayXMLHeader.default : ReplayXMLHeader :=
  ⟨.TMc6, "", "", "", ReplayScore.default⟩

/-- One event of the external xml-rs `EventReader` stream, reduced to what
the decoders of this repository distinguish: a start element with its
local name and `(name, value)` attrs, a tokenizer error (`Err(e)`, payload
dropped), and every other event kind (matched by the `_ => {}` arms). -/
inductive XmlEvent : Type where
  | startElement (name : String) (attrs : List (String × String))
  | errorEvent
  | other
deriving DecidableEq

/-- One attr of the `"header"` arm of `parse_challenge_header_xml`
(`challenge.rs` lines 20-35): `type`/`version` go through the enum layer
(`?` aborts the decode), `exever` is copied, others ignored. -/
def challenge_header_attr (h : ChallengeXMLHeader) (a : String × String) :
    Except ParseError ChallengeXMLHeader :=
  if a.1 = "type" then
    match MapType.try_from a.2 with
    | .ok v => .ok { h with maptype := v }
    | .error e => .error (.HeaderTryIntoEnumError e)
  else if a.1 = "version" then
    match GBXVersion.try_from a.2 with
    | .ok v => .ok { h with mapversion := v }
    | .error e => .error (.HeaderTryIntoEnumError e)
  else if a.1 = "exever" then .ok { h with exever := a.2 }
  else .ok h

/-- One attr of the `"ident"` arm (`challenge.rs` lines 36-45). -/
def challenge_ident_attr (h : ChallengeXMLHeader) (a : String × String) :
    ChallengeXMLHeader :=
  if a.1 = "uid" then { h with uid := a.2 }
  else if a.1 = "name" then { h with name := a.2 }
  else if a.1 = "author" then { h with author := a.2 }
  else h

/-- One attr of the `"desc"` arm (`challenge.rs` lines 46-76): enums abort
on failure, `nblaps`/`price` parse as `u32` and abort on failure. -/
def challenge_desc_attr (h : ChallengeXMLHeader) (a : String × String) :
    Except ParseError ChallengeXMLHeader :=
  if a.1 = "envir" then
    match Environment.try_from a.2 with
    | .ok v => .ok { h with envir := v }
    | .error e => .error (.HeaderTryIntoEnumError e)
  else if a.1 = "mood" then
    match Mood.try_from a.2 with
    | .ok v => .ok { h with mood := v }
    | .error e => .error (.HeaderTryIntoEnumError e)
  else if a.1 = "type" then
    match DescType.try_from a.2 with
    | .ok v => .ok { h with desctype := v }
    | .error e => .error (.HeaderTryIntoEnumError e)
  else if a.1 = "nblaps" then
    match parse_u32 a.2 with
    | some n => .ok { h with nblaps := n }
    | none => .error .HeaderValueError
  else if a.1 = "price" then
    match parse_u32 a.2 with
    | some n => .ok { h with price := n }
    | none => .error .HeaderValueError
  else .ok h

/-- One attr of the `"times"` arm (`challenge.rs` lines 77-118): a value
that parses as `u32` sets the field to `Some`; otherwise the literal
`"-1"` sets it to `None` (already its default); any other value falls
through both branches and leaves the field unchanged.  Never fails. -/
def challenge_times_attr (t : Times) (a : String × String) : Times :=
  if a.1 = "bronze" then
    match parse_u32 a.2 with
    | some s => { t with bronze := some s }
    | none => if a.2 = "-1" then { t with bronze := none } else t
  else if a.1 = "silver" then
    match parse_u32 a.2 with
    | some s => { t with silver := some s }
    | none => if a.2 = "-1" then { t with silver := none } else t
  else if a.1 = "gold" then
    match parse_u32 a.2 with
    | some s => { t with gold := some s }
    | none => if a.2 = "-1" then { t with gold := none } else t
  else if a.1 = "authortime" then
    match parse_u32 a.2 with
    | some s => { t with authortime := some s }
    | none => if a.2 = "-1" then { t with authortime := none } else t
  else if a.1 = "authorscore" then
    match parse_u32 a.2 with
    | some s => { t with authorscore := some s }
    | none => if a.2 = "-1" then { t with authorscore := none } else t
  else t

/-- One attr of the `"dep"` arm (`challenge.rs` lines 122-133): each
`file` attr is pushed onto the dependency list in document order. -/
def challenge_dep_attr (h : ChallengeXMLHeader) (a : String × String) :
    ChallengeXMLHeader :=
  if a.1 = "file" then { h with dependencies := h.dependencies ++ [⟨a.2⟩] }
  else h

/-- The event loop of `parse_challenge_header_xml` (`challenge.rs` lines
15-142).  On a tokenizer error it prints and `break`s, after which the
function returns `Ok(header)` with whatever was accumulated so far. -/
def challenge_loop (h : ChallengeXMLHeader) :
    List XmlEvent → Except ParseError ChallengeXMLHeader
  | [] => .ok h
  | .startElement n attrs :: rest =>
    if n = "header" then
      match attrs.foldlM challenge_header_attr h with
      | .ok h2 => challenge_loop h2 rest
      | .error e => .error e
    else if n = "ident" then
      challenge_loop (attrs.foldl challenge_ident_attr h) rest
    else if n = "desc" then
      match attrs.foldlM challenge_desc_attr h with
      | .ok h2 => challenge_loop h2 rest
      | .error e => .error e
    else if n = "times" then
      challenge_loop
        { h with times := some (attrs.foldl challenge_times_attr Times.default) } rest
    else if n = "deps" then challenge_loop h rest
    else if n = "dep" then
      challenge_loop (attrs.foldl challenge_dep_attr h) rest
    else challenge_loop h rest
  | .errorEvent :: _ => .ok h
  | .other :: rest => challenge_loop h rest

/-- `parse_challenge_header_xml` (`challenge.rs`), over the event stream
the xml-rs tokenizer produces from the header byte slice. -/
def parse_challenge_header_xml (events : List XmlEvent) :
    Except ParseError ChallengeXMLHeader :=
  challenge_loop ChallengeXMLHeader.default events

/-- `parse_header_xml` (`parser.rs` lines 50-185): the inline copy of the
challenge decoder used by `parse_from_buffer`; its dispatch is the same as
`parse_challenge_header_xml` (the only difference is `println!` logging of
unknown names, which has no effect on the result). -/
def parse_header_xml (events : List XmlEvent) :
    Except ParseError ChallengeXMLHeader :=
  parse_challenge_header_xml events

/-- One attr of the `"header"` arm of `parse_replay_xml` (`replay.rs`
lines 21-38): the state is the header paired with the `is_replay` flag.
`type` sets the flag only on the exact string `"replay"` (any other value
is skipped by `continue`); `version` goes through the enum layer and
aborts on failure; `exever` is copied. -/
def replay_header_attr (s : ReplayXMLHeader × Bool) (a : String × String) :
    Except ParseError (ReplayXMLHeader × Bool) :=
  if a.1 = "type" then
    if a.2 = "replay" then .ok (s.1, true) else .ok s
  else if a.1 = "version" then
    match GBXVersion.try_from a.2 with
    | .ok v => .ok ({ s.1 with version := v }, s.2)
    | .error e => .error (.HeaderTryIntoEnumError e)
  else if a.1 = "exever" then .ok ({ s.1 with exever := a.2 }, s.2)
  else .ok s

/-- One attr of the `"map"` arm (`replay.rs` lines 39-47). -/
def replay_map_attr (h : ReplayXMLHeader) (a : String × String) :
    ReplayXMLHeader :=
  if a.1 = "uid" then { h with map_uid := a.2 }
  else if a.1 = "name" then { h with map_name := a.2 }
  else h

/-- One attr of the `"times"` arm (`replay.rs` lines 48-71): `best` and
`stuntscore` via `u32::from_str`, `respawns` via `i32::from_str`,
`validable` as `0 != u32::from_str(..)`; every parse failure aborts the
decode with `HeaderValueError` (no `"-1"` sentinel in this variant). -/
def replay_times_attr (h : ReplayXMLHeader) (a : String × String) :
    Except ParseError ReplayXMLHeader :=
  if a.1 = "best" then
    match parse_u32 a.2 with
    | some v => .ok { h with score := { h.score with best := v } }
    | none => .error .HeaderValueError
  else if a.1 = "respawns" then
    match parse_i32 a.2 with
    | some v => .ok { h with score := { h.score with respawns := v } }
    | none => .error .HeaderValueError
  else if a.1 = "stuntscore" then
    match parse_u32 a.2 with
    | some v => .ok { h with score := { h.score with stuntscore := v } }
    | none => .error .HeaderValueError
  else if a.1 = "validable" then
    match parse_u32 a.2 with
    | some v => .ok { h with score := { h.score with validable := 0 != v } }
    | none => .error .HeaderValueError
  else .ok h

/-- The event loop of `parse_replay_xml` (`replay.rs` lines 16-77).  A
tokenizer error returns `Err(XMLParseError)` immediately. -/
def replay_loop (h : ReplayXMLHeader) (is_replay : Bool) :
    List XmlEvent → Except ParseError (ReplayXMLHeader × Bool)
  | [] => .ok (h, is_replay)
  | .startElement n attrs :: rest =>
    if n = "header" then
      match attrs.foldlM replay_header_attr (h, is_replay) with
      | .ok s => replay_loop s.1 s.2 rest
      | .error e => .error e
    else if n = "map" then
      replay_loop (attrs.foldl replay_map_attr h) is_replay rest
    else if n = "times" then
      match attrs.foldlM replay_times_attr h with
      | .ok h2 => replay_loop h2 is_replay rest
      | .error e => .error e
    else replay_loop h is_replay rest
  | .errorEvent :: _ => .error .XMLParseError
  | .other :: rest => replay_loop h is_replay rest

/-- `parse_replay_xml` (`replay.rs` lines 10-84): runs the loop from the
default header with the flag unset; at end of stream the header is
returned only if the flag was set, else `HeaderNotFound`. -/
def parse_replay_xml (events : List XmlEvent) :
    Except ParseError ReplayXMLHeader :=
  match replay_loop ReplayXMLHeader.default false events with
  | .ok (h, true) => .ok h
  | .ok (_, false) => .error .HeaderNotFound
  | .error e => .error e

/-- `find_window` (`parser.rs` lines 45-47):
`buf.windows(needle.len()).position(|w| w == needle)` — the lowest index
whose window equals the needle, searched from the start of the buffer. -/
def find_window (buf needle : List Nat) : Option Nat :=
  (List.range (buf.length + 1 - needle.length)).find?
    (fun i => (buf.drop i).take needle.length == needle)

/-- `HEADER_START_TOKEN` (`parser.rs` line 11): the bytes of `"<header "`. -/
def HEADER_START_TOKEN : List Nat := [60, 104, 101, 97, 100, 101, 114, 32]

/-- `HEADER_END_TOKEN` (`parser.rs` line 12): the bytes of `"</header>"`. -/
def HEADER_END_TOKEN : List Nat := [60, 47, 104, 101, 97, 100, 101, 114, 62]

/-- `THUMBNAIL_START_TOKEN` (`parser.rs` line 14). -/
def THUMBNAIL_START_TOKEN : List Nat := [255, 216, 255]

/-- `THUMBNAIL_END_TOKEN` (`parser.rs` line 15). -/
def THUMBNAIL_END_TOKEN : List Nat := [255, 217]

/-- `u16::from_le_bytes` of `buffer[i..i+2]` (guarded by the caller's
length check; out-of-range reads never happen where this is used). -/
def read_u16_le (buf : List Nat) (i : Nat) : Nat :=
  buf.getD i 0 + 256 * buf.getD (i + 1) 0

/-- `u32::from_le_bytes` of `buffer[i..i+4]`. -/
def read_u32_le (buf : List Nat) (i : Nat) : Nat :=
  buf.getD i 0 + 256 * buf.getD (i + 1) 0 + 65536 * buf.getD (i + 2) 0
    + 16777216 * buf.getD (i + 3) 0

/-- Rust slice `&buf[s..e]`: defined when `s ≤ e ≤ buf.len()`, otherwise
the access panics (`none`). -/
def slice_range (buf : List Nat) (s e : Nat) : Option (List Nat) :=
  if s ≤ e ∧ e ≤ buf.length then some ((buf.drop s).take (e - s)) else none

/-- Rust `usize` subtraction with overflow checks: `a - b` is defined only
when `b ≤ a`, underflow panics (`none`). -/
def checked_sub (a b : Nat) : Option Nat :=
  if b ≤ a then some (a - b) else none

/-- Whether a byte is a UTF-8 continuation byte (`0x80..=0xBF`). -/
def utf8_cont (b : Nat) : Bool := 128 ≤ b && b ≤ 191

/-- `String::from_utf8`: decodes a byte list as strict UTF-8 (shortest
form, no surrogates, max `U+10FFFF`), `none` on any invalid sequence. -/
def decode_utf8 : List Nat → Option (List Char)
  | [] => some []
  | b :: rest =>
    if b < 128 then
      (decode_utf8 rest).map (fun cs => Char.ofNat b :: cs)
    else if 194 ≤ b ∧ b ≤ 223 then
      match rest with
      | c1 :: rest2 =>
        if utf8_cont c1 then
          (decode_utf8 rest2).map
            (fun cs => Char.ofNat ((b - 192) * 64 + (c1 - 128)) :: cs)
        else none
      | [] => none
    else if 224 ≤ b ∧ b ≤ 239 then
      match rest with
      | c1 :: c2 :: rest2 =>
        if (if b = 224 then 160 ≤ c1 && c1 ≤ 191
            else if b = 237 then 128 ≤ c1 && c1 ≤ 159
            else utf8_cont c1) && utf8_cont c2 then
          (decode_utf8 rest2).map
            (fun cs =>
              Char.ofNat ((b - 224) * 4096 + (c1 - 128) * 64 + (c2 - 128)) :: cs)
        else none
      | _ => none
    else if 240 ≤ b ∧ b ≤ 244 then
      match rest with
      | c1 :: c2 :: c3 :: rest2 =>
        if (if b = 240 then 144 ≤ c1 && c1 ≤ 191
            else if b = 244 then 128 ≤ c1 && c1 ≤ 143
            else utf8_cont c1) && utf8_cont c2 && utf8_cont c3 then
          (decode_utf8 rest2).map
            (fun cs =>
              Char.ofNat ((b - 240) * 262144 + (c1 - 128) * 4096
                + (c2 - 128) * 64 + (c3 - 128)) :: cs)
        else none
      | _ => none
    else none

/-- `GBXOrigin` (`mod.rs` lines 62-71). -/
inductive GBXOrigin : Type where
  | File (path : String)
  | Buffer
  | Unknown
  | Hidden
deriving DecidableEq

/-- `GBXBinaryHeader` (`mod.rs` lines 117-121): `u16` version and `u32`
class id, as `Nat` below their bounds by construction. -/
structure GBXBinaryHeader : Type where
  version : Nat
  class_id : Nat
deriving DecidableEq

/-- The `GBX` record as constructed by `parse_from_buffer` (`parser.rs`
lines 238-253); the thumbnail (`JPEGData`) is its raw byte list. -/
structure GBX : Type where
  origin : GBXOrigin
  filesize : Nat
  header_length : Nat
  header_start : Nat
  thumbnail_length : Option Nat
  thumbnail_start : Option Nat
  thumbnail : Option (List Nat)
  header : Option ChallengeXMLHeader
  header_xml : String
  bin_header : GBXBinaryHeader
deriving DecidableEq

/-- The outcome of a call that can also panic: `ok`, a returned
`ParseError`, or an observable panic (out-of-range slice, failed
`unwrap`, checked-arithmetic underflow). -/
inductive PResult (α : Type) : Type where
  | ok (value : α)
  | error (e : ParseError)
  | panicked
deriving DecidableEq

/-- `parse_from_buffer` (`parser.rs` lines 194-254).  `tokenize` stands
for the external xml-rs `EventReader` turning the header byte slice into
an event stream.  Following the source line by line:
lines 195-201 the length-3 and magic checks; lines 203-206 the binary
header (`&buffer[3..5]` / `&buffer[9..13]` panic when the buffer is
shorter than 13); lines 208-217 the four independent token searches;
lines 222-223 `unwrap_or(&0)`; lines 224-227 the header slice (panics
when the range is invalid) and the inner XML decode; line 228
`String::from_utf8(..).unwrap()` (panics on invalid UTF-8); lines 230-236
the thumbnail slice; lines 238-253 the record, whose `header_length` is
the checked subtraction `he - hs`. -/
def parse_from_buffer (tokenize : List Nat → List XmlEvent)
    (buffer : List Nat) : PResult GBX :=
  if buffer.length < 3 then .error .FileTooShort
  else if buffer.take 3 ≠ [71, 66, 88] then .error .MissingGBXMagic
  else if buffer.length < 13 then .panicked
  else
    let bin_header : GBXBinaryHeader :=
      { version := read_u16_le buffer 3, class_id := read_u32_le buffer 9 }
    let header_start := find_window buffer HEADER_START_TOKEN
    let header_end :=
      (find_window buffer HEADER_END_TOKEN).map (· + HEADER_END_TOKEN.length)
    let thumbnail_start := find_window buffer THUMBNAIL_START_TOKEN
    let thumbnail_end :=
      (find_window buffer THUMBNAIL_END_TOKEN).map (· + THUMBNAIL_END_TOKEN.length)
    let hs := header_start.getD 0
    let he := header_end.getD 0
    let header_bytes? : Option (List Nat) :=
      if header_start.isSome ∧ header_end.isSome then slice_range buffer hs he
      else some []
    match header_bytes? with
    | none => .panicked
    | some header_bytes =>
      let header : Except ParseError ChallengeXMLHeader :=
        if header_start.isSome ∧ header_end.isSome then
          parse_header_xml (tokenize header_bytes)
        else .error .HeaderNotFound
      match decode_utf8 header_bytes with
      | none => .panicked
      | some header_chars =>
        let thumbnail? : Option (Option (List Nat)) :=
          match thumbnail_start, thumbnail_end with
          | some ts, some te => (slice_range buffer ts te).map some
          | _, _ => some none
        match thumbnail? with
        | none => .panicked
        | some thumbnail =>
          match checked_sub he hs with
          | none => .panicked
          | some header_length =>
            .ok {
              origin := .Buffer
              filesize := buffer.length
              header_length := header_length
              header_start := hs
              thumbnail_length :=
                match thumbnail_end, thumbnail_start with
                | some te, some ts => some (te - ts)
                | _, _ => none
              thumbnail_start := thumbnail_start
              thumbnail := thumbnail
              header := match header with | .ok v => some v | .error _ => none
              header_xml := String.mk header_chars
              bin_header := bin_header }

/-- Whether one attr is the exact pair `type="replay"` (the case-sensitive
test of `replay.rs` line 24-27). -/
def attr_is_replay (a : String × String) : Bool :=
  a.1 == "type" && a.2 == "replay"

/-- Whether some `header` start element of the stream carries the attr
`type="replay"` — the condition under which `parse_replay_xml` can set its
`is_replay` flag. -/
def has_replay_flag (events : List XmlEvent) : Bool :=
  events.any fun ev =>
    match ev with
    | .startElement n attrs => n == "header" && attrs.any attr_is_replay
    | _ => false

theorem find_window_some_bound {buf needle : List Nat} {i : Nat}
    (h : find_window buf needle = some i) : i + needle.length ≤ buf.length := by
  have hmem : i ∈ List.range (buf.length + 1 - needle.length) :=
    List.mem_of_find?_eq_some h
  have := List.mem_range.mp hmem
  omega

theorem replay_header_attr_flag {s s' : ReplayXMLHeader × Bool}
    {a : String × String} (h : replay_header_attr s a = .ok s')
    (ht : s'.2 = true) : s.2 = true ∨ attr_is_replay a = true := by
  unfold replay_header_attr at h
  by_cases h1 : a.1 = "type"
  · by_cases h2 : a.2 = "replay"
    · right
      simp [attr_is_replay, h1, h2]
    · left
      simp [h1, h2] at h
      rw [← h] at ht
      exact ht
  · left
    by_cases h2 : a.1 = "version"
    · cases hv : GBXVersion.try_from a.2 with
      | ok v =>
        simp [h1, h2, hv] at h
        rw [← h] at ht
        exact ht
      | error e => simp [h1, h2, hv] at h
    · by_cases h3 : a.1 = "exever"
      · simp [h1, h2, h3] at h
        rw [← h] at ht
        exact ht
      · simp [h1, h2, h3] at h
        rw [← h] at ht
        exact ht

theorem replay_fold_flag {attrs : List (String × String)}
    {s s' : ReplayXMLHeader × Bool}
    (h : List.foldlM replay_header_attr s attrs = .ok s') (ht : s'.2 = true) :
    s.2 = true ∨ attrs.any attr_is_replay = true := by
  induction attrs generalizing s with
  | nil =>
    simp only [List.foldlM_nil, pure, Except.pure, Except.ok.injEq] at h
    rw [← h] at ht
    exact Or.inl ht
  | cons a as ih =>
    simp only [List.foldlM_cons] at h
    cases hstep : replay_header_attr s a with
    | error e =>
      rw [hstep] at h
      simp only [bind, Except.bind] at h
      exact Except.noConfusion h
    | ok s1 =>
      rw [hstep] at h
      simp only [bind, Except.bind] at h
      rcases ih h with h1 | h2
      · rcases replay_header_attr_flag hstep h1 with hs | ha
        · exact Or.inl hs
        · right
          simp [List.any_cons, ha]
      · right
        simp [List.any_cons, h2]

theorem replay_loop_flag {events : List XmlEvent} {h0 h' : ReplayXMLHeader}
    {flag : Bool} (h : replay_loop h0 flag events = .ok (h', true)) :
    flag = true ∨ has_replay_flag events = true := by
  induction events generalizing h0 flag with
  | nil =>
    simp only [replay_loop, Except.ok.injEq, Prod.mk.injEq] at h
    exact Or.inl h.2
  | cons ev rest ih =>
    cases ev with
    | startElement n attrs =>
      simp only [replay_loop] at h
      by_cases hn : n = "header"
      · rw [if_pos hn] at h
        cases hfold : List.foldlM replay_header_attr (h0, flag) attrs with
        | error e => rw [hfold] at h; simp at h
        | ok s1 =>
          rw [hfold] at h
          simp only at h
          rcases ih h with h1 | h2
          · rcases replay_fold_flag hfold h1 with hs | ha
            · exact Or.inl hs
            · right
              simp [has_replay_flag, List.any_cons, hn, ha]
          · right
            simp only [has_replay_flag] at h2
            simp [has_replay_flag, h2]
      · rw [if_neg hn] at h
        by_cases hm : n = "map"
        · rw [if_pos hm] at h
          rcases ih h with h1 | h2
          · exact Or.inl h1
          · right
            simp only [has_replay_flag] at h2
            simp [has_replay_flag, h2]
        · rw [if_neg hm] at h
          by_cases htm : n = "times"
          · rw [if_pos htm] at h
            cases hfold : List.foldlM replay_times_attr h0 attrs with
            | error e => rw [hfold] at h; simp at h
            | ok h1 =>
              rw [hfold] at h
              simp only at h
              rcases ih h with hf | h2
              · exact Or.inl hf
              · right
                simp only [has_replay_flag] at h2
                simp [has_replay_flag, h2]
          · rw [if_neg htm] at h
            rcases ih h with hf | h2
            · exact Or.inl hf
            · right
              simp only [has_replay_flag] at h2
              simp [has_replay_flag, h2]
    | errorEvent =>
      simp only [replay_loop] at h
      simp at h
    | other =>
      simp only [replay_loop] at h
      rcases ih h with hf | h2
      · exact Or.inl hf
      · right
        simp only [has_replay_flag] at h2
        simp [has_replay_flag, h2]

/-- A 13-byte buffer with valid magic in which none of the four tokens
occurs. -/
def no_header_buf : List Nat := [71, 66, 88, 0, 0, 0, 0, 0, 0, 0, 0, 0, 0]

/-- A buffer with valid magic in which the first `"</header>"` occurrence
ends before the first `"<header "` occurrence begins. -/
def crossed_buf : List Nat :=
  [71, 66, 88] ++ List.replicate 10 0 ++ HEADER_END_TOKEN ++ [0] ++ HEADER_START_TOKEN

/-- A buffer with valid magic whose located header region
`"<header " ++ [0xFF] ++ "</header>"` is not valid UTF-8. -/
def bad_utf8_buf : List Nat :=
  [71, 66, 88] ++ List.replicate 10 0 ++ HEADER_START_TOKEN ++ [255] ++ HEADER_END_TOKEN

/-- Claim C1, counterexample: on a well-formed buffer that contains
neither header token, `parse_from_buffer` does not fail with
`HeaderNotFound` — it succeeds, with the header field unset. -/
theorem C1_counterexample :
    parse_from_buffer (fun _ => []) no_header_buf ≠
      PResult.error ParseError.HeaderNotFound ∧
    parse_from_buffer (fun _ => []) no_header_buf = PResult.ok
      { origin := .Buffer
        filesize := 13
        header_length := 0
        header_start := 0
        thumbnail_length := none
        thumbnail_start := none
        thumbnail := none
        header := none
        header_xml := ""
        bin_header := { version := 0, class_id := 0 } } :=
  ⟨by decide, by decide⟩

/-- Claim C1 (amended): for every buffer with valid magic and at least 13
bytes in which neither header token occurs, `parse_from_buffer` succeeds —
header absence is handled like thumbnail absence, non-fatally: the header
field and the thumbnail fields are left unset and the raw header XML is
empty. -/
theorem C1_header_absence_nonfatal
    (tokenize : List Nat → List XmlEvent) (buffer : List Nat)
    (hmagic : buffer.take 3 = [71, 66, 88]) (hlen : 13 ≤ buffer.length)
    (h1 : find_window buffer HEADER_START_TOKEN = none)
    (h2 : find_window buffer HEADER_END_TOKEN = none)
    (h3 : find_window buffer THUMBNAIL_START_TOKEN = none)
    (h4 : find_window buffer THUMBNAIL_END_TOKEN = none) :
    parse_from_buffer tokenize buffer = PResult.ok
      { origin := .Buffer
        filesize := buffer.length
        header_length := 0
        header_start := 0
        thumbnail_length := none
        thumbnail_start := none
        thumbnail := none
        header := none
        header_xml := ""
        bin_header := { version := read_u16_le buffer 3,
                        class_id := read_u32_le buffer 9 } } := by
  unfold parse_from_buffer
  rw [if_neg (by omega), if_neg (by simp [hmagic]), if_neg (by omega)]
  simp only [h1, h2, h3, h4]
  rfl

/-- Witness for C1: the amended theorem applied to the concrete
13-byte buffer `no_header_buf`. -/
theorem C1_witness :
    parse_from_buffer (fun _ => []) no_header_buf = PResult.ok
      { origin := .Buffer
        filesize := no_header_buf.length
        header_length := 0
        header_start := 0
        thumbnail_length := none
        thumbnail_start := none
        thumbnail := none
        header := none
        header_xml := ""
        bin_header := { version := read_u16_le no_header_buf 3,
                        class_id := read_u32_le no_header_buf 9 } } :=
  C1_header_absence_nonfatal (fun _ => []) no_header_buf (by decide) (by decide)
    (by decide) (by decide) (by decide) (by decide)

/-- Claim C2: the code only checks `buffer.len() < 3`; a buffer of length
3..12 with valid magic reaches the unconditional slice `&buffer[9..13]`
and panics instead of returning `FileTooShort` (the `FileTooShort` branch
fires only below 3 bytes); a long-enough buffer with wrong magic does
return `MissingGBXMagic`. -/
theorem C2_short_buffer_panics :
    parse_from_buffer (fun _ => []) [71, 66, 88, 0, 0, 0, 0, 0, 0, 0, 0, 0] =
      PResult.panicked ∧
    parse_from_buffer (fun _ => []) [0, 0] =
      PResult.error ParseError.FileTooShort ∧
    parse_from_buffer (fun _ => []) [65, 66, 67, 0, 0, 0, 0, 0, 0, 0, 0, 0, 0] =
      PResult.error ParseError.MissingGBXMagic :=
  ⟨by decide, by decide, by decide⟩

/-- Claim C3, counterexample: on a buffer whose first `"</header>"`
occurrence ends before its first `"<header "` occurrence,
`parse_from_buffer` does not fail with a distinct error — it panics on the
out-of-range slice. -/
theorem C3_counterexample :
    parse_from_buffer (fun _ => []) crossed_buf = PResult.panicked := by decide

/-- Claim C3 (amended): `parse_from_buffer` performs no `end ≥ start`
validation.  Whenever both header tokens are found but the end of the
first `"</header>"` occurrence precedes the first `"<header "` occurrence,
the slice `&buffer[hs..he]` is out of range and the call panics instead of
returning an error. -/
theorem C3_no_range_guard_panics
    (tokenize : List Nat → List XmlEvent) (buffer : List Nat) (s e : Nat)
    (hmagic : buffer.take 3 = [71, 66, 88]) (hlen : 13 ≤ buffer.length)
    (hstart : find_window buffer HEADER_START_TOKEN = some s)
    (hend : find_window buffer HEADER_END_TOKEN = some e)
    (hcross : e + HEADER_END_TOKEN.length < s) :
    parse_from_buffer tokenize buffer = PResult.panicked := by
  unfold parse_from_buffer
  rw [if_neg (by omega), if_neg (by simp [hmagic]), if_neg (by omega)]
  simp only [hstart, hend, Option.map_some', Option.getD_some, Option.isSome_some]
  have hneg : ¬(s ≤ e + HEADER_END_TOKEN.length ∧
      e + HEADER_END_TOKEN.length ≤ buffer.length) := by omega
  simp [slice_range, hneg]

/-- Witness for C3: the amended theorem applied to `crossed_buf`, where
`"</header>"` is found at index 13 (so `he = 22`) and `"<header "` at
index 23. -/
theorem C3_witness : parse_from_buffer (fun _ => []) crossed_buf = PResult.panicked :=
  C3_no_range_guard_panics (fun _ => []) crossed_buf 23 13 (by decide) (by decide)
    (by decide) (by decide) (by decide)

/-- Claim C4, counterexample: a non-numeric, non-sentinel times value
(`bronze="abc"`) is not a hard failure of the Challenge decode — both
`if let Ok` and the `== "-1"` branch fall through, the field stays at its
default and the decode succeeds. -/
theorem C4_counterexample :
    parse_challenge_header_xml [.startElement "times" [("bronze", "abc")]] =
      .ok { ChallengeXMLHeader.default with times := some Times.default } ∧
    parse_challenge_header_xml [.startElement "times" [("bronze", "abc")]] ≠
      .error ParseError.HeaderValueError :=
  ⟨by decide, by decide⟩

/-- Claim C4 (amended): in the Challenge times element a numeric value
yields `Some v`, the literal `"-1"` yields `None`, and any other
non-numeric value silently leaves the field at its default (`None`)
without failing the decode; whenever the times element is present the
optional `Times` record is set.  `<times bronze='-1' silver='50000'>`
decodes to `bronze = None`, `silver = Some 50000`. -/
theorem C4_times_decoding :
    parse_challenge_header_xml
        [.startElement "times" [("bronze", "-1"), ("silver", "50000")]] =
      .ok { ChallengeXMLHeader.default with
              times := some { Times.default with silver := some 50000 } } ∧
    (∀ s n, parse_u32 s = some n →
      parse_challenge_header_xml [.startElement "times" [("bronze", s)]] =
        .ok { ChallengeXMLHeader.default with
                times := some { Times.default with bronze := some n } }) ∧
    (∀ s, parse_u32 s = none → s ≠ "-1" →
      parse_challenge_header_xml [.startElement "times" [("bronze", s)]] =
        .ok { ChallengeXMLHeader.default with times := some Times.default }) := by
  refine ⟨by decide, ?_, ?_⟩
  · intro s n h
    simp [parse_challenge_header_xml, challenge_loop, challenge_times_attr, h]
  · intro s h hne
    simp [parse_challenge_header_xml, challenge_loop, challenge_times_attr, h, hne]

/-- Claim C5, counterexample: the Challenge decoder, on a stream whose
first event is a tokenizer error (as for an empty buffer), `break`s and
returns `Ok` of the default header — a silently default-populated header,
not a malformed-XML error. -/
theorem C5_counterexample :
    parse_challenge_header_xml [.errorEvent] = .ok ChallengeXMLHeader.default ∧
    parse_challenge_header_xml [.errorEvent] ≠ .error ParseError.XMLParseError :=
  ⟨by decide, by decide⟩

/-- Claim C5 (amended): on a tokenizer error as the first event (the
empty-buffer case) the Replay decoder fails with the malformed-XML error
(`XMLParseError`), but the Challenge decoder stops at the error and
returns the header accumulated so far — the default header for an empty
buffer. -/
theorem C5_tokenizer_error_behavior :
    (∀ rest, parse_replay_xml (.errorEvent :: rest) =
      .error ParseError.XMLParseError) ∧
    (∀ rest, parse_challenge_header_xml (.errorEvent :: rest) =
      .ok ChallengeXMLHeader.default) :=
  ⟨fun _ => rfl, fun _ => rfl⟩

/-- Claim C6: the Replay decoder yields a header only if some `header`
element carries `type="replay"` (case-sensitive); a different value is
skipped without aborting the scan, and if the flag is never set the
result is `HeaderNotFound`; `<header type='replay'></header>` alone
decodes to the default (zero-score) replay header. -/
theorem C6_replay_flag_required :
    (∀ events h, parse_replay_xml events = .ok h →
      has_replay_flag events = true) ∧
    parse_replay_xml [.startElement "header" [("type", "replay")]] =
      .ok ReplayXMLHeader.default ∧
    parse_replay_xml [.startElement "header" [("type", "Replay")]] =
      .error ParseError.HeaderNotFound := by
  refine ⟨?_, by decide, by decide⟩
  intro events hh hok
  unfold parse_replay_xml at hok
  cases hl : replay_loop ReplayXMLHeader.default false events with
  | error e => rw [hl] at hok; simp at hok
  | ok p =>
    rw [hl] at hok
    obtain ⟨hdr, flag⟩ := p
    cases flag with
    | false => simp at hok
    | true =>
      rcases replay_loop_flag hl with hf | hhas
      · exact absurd hf (by simp)
      · exact hhas

/-- Claim C7: in the Replay times element `best` and `stuntscore` parse
as `u32`, `respawns` parses (and is stored) as a signed 32-bit integer,
`validable` is `0 != value`; there is no `"-1"` sentinel, so
`<header type='replay'><times best='-1'></times></header>` fails with the
invalid-integer error on `best`. -/
theorem C7_replay_times_fields :
    (∀ s n, parse_u32 s = some n →
      parse_replay_xml [.startElement "header" [("type", "replay")],
          .startElement "times" [("best", s)]] =
        .ok { ReplayXMLHeader.default with
                score := { ReplayScore.default with best := n } }) ∧
    (∀ s v, parse_i32 s = some v →
      parse_replay_xml [.startElement "header" [("type", "replay")],
          .startElement "times" [("respawns", s)]] =
        .ok { ReplayXMLHeader.default with
                score := { ReplayScore.default with respawns := v } }) ∧
    (∀ s n, parse_u32 s = some n →
      parse_replay_xml [.startElement "header" [("type", "replay")],
          .startElement "times" [("stuntscore", s)]] =
        .ok { ReplayXMLHeader.default with
                score := { ReplayScore.default with stuntscore := n } }) ∧
    (∀ s n, parse_u32 s = some n →
      parse_replay_xml [.startElement "header" [("type", "replay")],
          .startElement "times" [("validable", s)]] =
        .ok { ReplayXMLHeader.default with
                score := { ReplayScore.default with validable := 0 != n } }) ∧
    parse_replay_xml [.startElement "header" [("type", "replay")],
        .startElement "times" [("best", "-1")]] =
      .error ParseError.HeaderValueError := by
  refine ⟨?_, ?_, ?_, ?_, by decide⟩ <;> intro s n h <;>
    simp [parse_replay_xml, replay_loop, replay_header_attr, replay_times_attr,
      List.foldlM_cons, List.foldlM_nil, bind, Except.bind, pure, Except.pure, h,
      ReplayXMLHeader.default, ReplayScore.default]

/-- Claim C8, counterexample: a legacy `challenge` element does not
populate the map fields — the Replay decoder has no arm for it, so the
result is the default header with empty `map_uid`/`map_name`. -/
theorem C8_counterexample :
    parse_replay_xml [.startElement "header" [("type", "replay")],
        .startElement "challenge" [("uid", "someuid"), ("name", "somename")]] =
      .ok ReplayXMLHeader.default ∧
    ReplayXMLHeader.default.map_uid = "" ∧
    ReplayXMLHeader.default.map_name = "" :=
  ⟨by decide, rfl, rfl⟩

/-- Claim C8 (amended): the Replay decoder populates `map_uid`/`map_name`
from the `uid`/`name` attrs of a `map` element only; an element named
`challenge` falls into the catch-all arm and is ignored, leaving the map
fields at their defaults. -/
theorem C8_map_element_only :
    (∀ u n, parse_replay_xml [.startElement "header" [("type", "replay")],
        .startElement "map" [("uid", u), ("name", n)]] =
      .ok { ReplayXMLHeader.default with map_uid := u, map_name := n }) ∧
    (∀ u n, parse_replay_xml [.startElement "header" [("type", "replay")],
        .startElement "challenge" [("uid", u), ("name", n)]] =
      .ok ReplayXMLHeader.default) := by
  constructor <;> intro u n <;>
    simp [parse_replay_xml, replay_loop, replay_header_attr, replay_map_attr,
      List.foldlM_cons, List.foldlM_nil, bind, Except.bind, pure, Except.pure]

/-- Claim C9: when both header tokens are located (in order) but the bytes
between them are not valid UTF-8, `parse_from_buffer` panics at
`String::from_utf8(..).unwrap()` instead of returning any `ParseError`. -/
theorem C9_invalid_utf8_panics
    (tokenize : List Nat → List XmlEvent) (buffer : List Nat) (s e : Nat)
    (hmagic : buffer.take 3 = [71, 66, 88]) (hlen : 13 ≤ buffer.length)
    (hstart : find_window buffer HEADER_START_TOKEN = some s)
    (hend : find_window buffer HEADER_END_TOKEN = some e)
    (hordered : s ≤ e + HEADER_END_TOKEN.length)
    (hbad : decode_utf8
      ((buffer.drop s).take (e + HEADER_END_TOKEN.length - s)) = none) :
    parse_from_buffer tokenize buffer = PResult.panicked := by
  have hb := find_window_some_bound hend
  unfold parse_from_buffer
  rw [if_neg (by omega), if_neg (by simp [hmagic]), if_neg (by omega)]
  simp only [hstart, hend, Option.map_some', Option.getD_some, Option.isSome_some]
  have hpos : s ≤ e + HEADER_END_TOKEN.length ∧
      e + HEADER_END_TOKEN.length ≤ buffer.length := ⟨hordered, hb⟩
  simp [slice_range, hpos, hbad]

/-- Witness for C9: `bad_utf8_buf` locates `"<header "` at 13 and
`"</header>"` at 22; the slice contains the byte `0xFF` and the parse
panics. -/
theorem C9_witness :
    parse_from_buffer (fun _ => []) bad_utf8_buf = PResult.panicked :=
  C9_invalid_utf8_panics (fun _ => []) bad_utf8_buf 13 22 (by decide) (by decide)
    (by decide) (by decide) (by decide) (by decide)

/-- Claim C10: every `TryFrom<&str>` of the enum layer lowercases its
input first, so acceptance is case-insensitive (`"CHALLENGE"`, `"TMc.6"`,
`"Day"`, ... are accepted), while any value outside the closed set is
rejected with an error string containing the original text; the Replay
decoder's `type` check, by contrast, is case-sensitive. -/
theorem C10_enum_case_insensitive :
    MapType.try_from "CHALLENGE" = .ok .Challenge ∧
    GBXVersion.try_from "TMc.6" = .ok .TMc6 ∧
    GBXVersion.try_from "TMR.7" = .ok .TMr7 ∧
    Environment.try_from "Stadium" = .ok .Stadium ∧
    Mood.try_from "Day" = .ok .Day ∧
    Mood.try_from "NIGHT" = .ok .Night ∧
    DescType.try_from "Race" = .ok .Race ∧
    (∀ s, to_lowercase s ≠ "challenge" →
      MapType.try_from s = .error ("Unknown map type: " ++ s)) ∧
    (∀ s, to_lowercase s ≠ "day" → to_lowercase s ≠ "sunset" →
      to_lowercase s ≠ "sunrise" → to_lowercase s ≠ "night" →
      Mood.try_from s = .error ("Unknown mood: " ++ s)) ∧
    parse_replay_xml [.startElement "header" [("type", "REPLAY")]] =
      .error ParseError.HeaderNotFound := by
  refine ⟨by decide, by decide, by decide, by decide, by decide, by decide,
    by decide, ?_, ?_, by decide⟩
  · intro s h
    simp [MapType.try_from, h]
  · intro s h1 h2 h3 h4
    simp [Mood.try_from, h1, h2, h3, h4]

end Gbx

